import Mathlib

/-!
# Verification of the file-manager page state logic (`src/app/page.tsx`)

A shallow embedding of the client-side file-manager controller: the
`FileRecord` data model, the session state held by the page component, the
pure `formatFileSize` helper, and the four asynchronous operations
(`fetchFiles`, `handleUpload`, `handleDownload`, `handleDelete`) modelled as
functions from the current state and the outcome of the underlying HTTP
request to the settled state (plus observable side-effect counts where a
property needs them: network requests issued, object URLs created and
revoked, nested list calls).

Each operation in the source is an `async` function of shape
`try { ... } catch (error) { ...setErrorMessage... } finally { ...reset flag... }`.
The possible outcomes of the awaited steps (fetch throwing, `response.ok`
false, body parsing throwing, DOM trigger steps throwing) are enumerated as
inductive outcome types; the embedding then follows the source's control
flow literally for each outcome.

A thrown JavaScript value is modelled as `Option String`: `some m` when the
value is an `Error` instance with message `m` (the source tests
`error instanceof Error`), `none` otherwise.
-/

/-- `FileRecord` from `page.tsx`: backend-supplied metadata for one stored
file. Optional fields become `Option`. -/
structure FileRecord where
  id : String
  fileName : String
  size : Int
  uploadedAt : String
  contentType : Option String := none
  description : Option String := none
  deriving Repr, DecidableEq

/-- The component's session state: the eight `useState` slots of
`FileManagerPage`. The browser `File` handle held in `selectedFile` is
opaque to the controller logic, so it is modelled by its name (a `String`). -/
structure ManagerState where
  files : List FileRecord
  isLoading : Bool
  isUploading : Bool
  errorMessage : Option String
  selectedFile : Option String
  description : String
  activeDownloadId : Option String
  deletingId : Option String
  deriving Repr, DecidableEq

/-- The initial state on mount: `useState([])`, `useState(true)`,
`useState(false)`, `useState(null)`, `useState(null)`, `useState("")`,
`useState(null)`, `useState(null)` (lines 33–40 of the source). -/
def initialState : ManagerState :=
  { files := []
    isLoading := true
    isUploading := false
    errorMessage := none
    selectedFile := none
    description := ""
    activeDownloadId := none
    deletingId := none }

/-! ## `formatFileSize`

The source computes
`index = Math.floor(Math.log(sizeInBytes) / Math.log(1024))` and returns
`` `${(sizeInBytes / 1024 ** index).toFixed(1)} ${units[index]}` ``.

For a positive integer argument, the real-number value of
`⌊log sizeInBytes / log 1024⌋` is the base-1024 integer logarithm
`Nat.log 1024`, which is how the index is embedded here.  (JavaScript
evaluates the quotient in IEEE-754 doubles, which can differ from the real
value only for inputs within a relative distance of about `2⁻⁵²` of a power
of 1024; at every input appearing in a theorem below the double computation
is exact and agrees with this model.)  For a negative argument `Math.log`
returns `NaN`, `Math.floor(NaN)` is `NaN`, and `units[NaN]` is `undefined`;
the index is therefore `Option`-valued, `none` standing for `NaN`.  An
out-of-bounds `units[index]` is likewise `undefined`; the whole function is
therefore modelled as returning `Option String`, `none` standing for a
result built from `undefined`. -/

/-- The `units` array of `formatFileSize`. -/
def units : List String := ["B", "KB", "MB", "GB", "TB"]

/-- `Math.floor(Math.log sizeInBytes / Math.log 1024)`: the base-1024
integer logarithm for positive arguments, `none` (standing for `NaN`) for
negative ones. Zero never reaches this expression (early return). -/
def logIndex (sizeInBytes : Int) : Option Nat :=
  if 0 < sizeInBytes then some (Nat.log 1024 sizeInBytes.toNat) else none

/-- `(num / den).toFixed(1)` for a nonnegative exact quotient `num / den`
(`den > 0`): round `10 * num / den` to the nearest integer `t` (ties away
from zero, `t = ⌊10 * num / den + 1 / 2⌋ = (20 * num + den) / (2 * den)`)
and print `t / 10`, a point, and the digit `t % 10`. At the inputs used in
the theorems below the quotient is an exact multiple of one tenth, so no
rounding behaviour is exercised and this agrees with the IEEE-754
computation of the source. -/
def toFixed1 (num den : Int) : String :=
  let t : Int := (20 * num + den) / (2 * den)
  toString (t / 10) ++ "." ++ toString (t % 10)

/-- `formatFileSize` from `page.tsx`. Returns `some` rendered string, or
`none` when the rendering would involve `undefined` (index `NaN` from a
negative argument, or `units[index]` out of bounds). The displayed number
is `sizeInBytes / 1024 ** index` rendered with `toFixed(1)`. -/
def formatFileSize (sizeInBytes : Int) : Option String :=
  if sizeInBytes = 0 then some "0 B"
  else
    (logIndex sizeInBytes).bind fun index =>
      (units.get? index).map fun unit =>
        toFixed1 sizeInBytes ((1024 : Int) ^ index) ++ " " ++ unit

/-! ## User-facing message constants (the string literals of the source) -/

/-- Line 54: listing failed. -/
def listFailedMsg : String := "ファイル一覧の取得に失敗しました。"

/-- Line 62: unexpected error fallback in `fetchFiles`. -/
def unexpectedErrMsg : String := "予期せぬエラーが発生しました。"

/-- Line 77: upload validation — no file selected. -/
def selectFileMsg : String := "アップロードするファイルを選択してください。"

/-- Line 97: upload failed. -/
def uploadFailedMsg : String := "ファイルのアップロードに失敗しました。"

/-- Line 106: unexpected error fallback in `handleUpload`. -/
def uploadErrFallbackMsg : String := "アップロード中にエラーが発生しました。"

/-- Line 119: per-file download failed suffix (prefixed by the file name). -/
def downloadFailedSuffix : String := "のダウンロードに失敗しました。"

/-- Line 134: unexpected error fallback in `handleDownload`. -/
def downloadErrFallbackMsg : String := "ダウンロード中にエラーが発生しました。"

/-- Line 150: delete failed. -/
def deleteFailedMsg : String := "ファイルの削除に失敗しました。"

/-- Line 157: unexpected error fallback in `handleDelete`. -/
def deleteErrFallbackMsg : String := "削除中にエラーが発生しました。"

/-! ## `fetchFiles` (the `list()` operation, lines 47–67) -/

/-- The JSON payload of a successful listing response, as the source's
`payload.files ?? payload ?? []` discriminates it: an object whose `files`
field is a (non-nullish) array, a bare array, or a nullish payload. -/
inductive ListPayload where
  | wrapper (files : List FileRecord)
  | bare (files : List FileRecord)
  | nullish
  deriving Repr, DecidableEq

/-- `payload.files ?? payload ?? []` (line 58). -/
def normalizePayload : ListPayload → List FileRecord
  | .wrapper fs => fs
  | .bare fs => fs
  | .nullish => []

/-- How the awaited steps of `fetchFiles` can settle: the `fetch` call
throws; the response arrives with `ok = false`; `response.json()` throws;
or a payload is obtained. -/
inductive ListOutcome where
  | fetchThrow (err : Option String)
  | notOk
  | jsonThrow (err : Option String)
  | success (payload : ListPayload)
  deriving Repr, DecidableEq

/-- The first two statements of `fetchFiles`:
`setIsLoading(true); setErrorMessage(null);` (lines 48–49). -/
def fetchFilesStart (s : ManagerState) : ManagerState :=
  { s with isLoading := true, errorMessage := none }

/-- `fetchFiles` (lines 47–67), from the start of the call to the settled
state. A non-ok response raises `Error(listFailedMsg)` which the `catch`
block stores via `error.message`; a thrown non-`Error` value falls back to
`unexpectedErrMsg`; the `finally` block always resets `isLoading`. -/
def fetchFiles (s : ManagerState) (o : ListOutcome) : ManagerState :=
  let s := fetchFilesStart s
  let s :=
    match o with
    | .fetchThrow err => { s with errorMessage := some (err.getD unexpectedErrMsg) }
    | .notOk => { s with errorMessage := some listFailedMsg }
    | .jsonThrow err => { s with errorMessage := some (err.getD unexpectedErrMsg) }
    | .success payload => { s with files := normalizePayload payload }
  { s with isLoading := false }

/-- The settled `errorMessage` of a `fetchFiles` call, as a function of the
outcome alone. -/
def listErrOf : ListOutcome → Option String
  | .fetchThrow err => some (err.getD unexpectedErrMsg)
  | .notOk => some listFailedMsg
  | .jsonThrow err => some (err.getD unexpectedErrMsg)
  | .success _ => none

/-! ## `handleUpload` (the upload operation, lines 73–111) -/

/-- How the awaited steps of `handleUpload` can settle once a file is
selected and the POST is issued: the `fetch` throws, the response is
non-ok, or it is ok — in which case the source runs `await fetchFiles()`,
whose own outcome is carried inside the constructor. -/
inductive UploadOutcome where
  | fetchThrow (err : Option String)
  | notOk
  | success (listOutcome : ListOutcome)
  deriving Repr, DecidableEq

/-- Result of an upload call: the settled state plus the observable
side-effect counts the spec's properties talk about — how many POST upload
requests were issued and how many times `fetchFiles` was invoked. -/
structure UploadResult where
  state : ManagerState
  uploadRequests : Nat
  listCalls : Nat
  deriving Repr, DecidableEq

/-- `setIsUploading(true); setErrorMessage(null);` (lines 81–82), reached
only after the selected-file guard passes. -/
def handleUploadStart (s : ManagerState) : ManagerState :=
  { s with isUploading := true, errorMessage := none }

/-- `handleUpload` (lines 73–111). With no selected file the guard at
lines 76–79 sets the validation message and returns before any network
request and before `setIsUploading(true)`. Otherwise the POST is issued;
a non-ok response raises `Error(uploadFailedMsg)`; on success the source
clears `selectedFile` and `description` and awaits `fetchFiles()` (which
never throws); the `finally` block always resets `isUploading`. -/
def handleUpload (s : ManagerState) (o : UploadOutcome) : UploadResult :=
  match s.selectedFile with
  | none => ⟨{ s with errorMessage := some selectFileMsg }, 0, 0⟩
  | some _ =>
    let s1 := handleUploadStart s
    match o with
    | .fetchThrow err =>
      ⟨{ s1 with errorMessage := some (err.getD uploadErrFallbackMsg),
                 isUploading := false }, 1, 0⟩
    | .notOk =>
      ⟨{ s1 with errorMessage := some uploadFailedMsg, isUploading := false }, 1, 0⟩
    | .success listOutcome =>
      let s2 := { s1 with selectedFile := none, description := "" }
      let s3 := fetchFiles s2 listOutcome
      ⟨{ s3 with isUploading := false }, 1, 1⟩

/-- The settled `errorMessage` of an upload call with a file selected, as a
function of the outcome alone (on success it is whatever the nested
`fetchFiles` left). -/
def uploadErrOf : UploadOutcome → Option String
  | .fetchThrow err => some (err.getD uploadErrFallbackMsg)
  | .notOk => some uploadFailedMsg
  | .success listOutcome => listErrOf listOutcome

/-! ## `handleDownload` (the download operation, lines 113–139) -/

/-- How the save-as trigger steps (lines 124–129: create the anchor,
`appendChild`, `click`, `removeChild`) settle: all succeed, or one of them
throws. `revokeObjectURL` (line 130) runs only after all of them. -/
inductive TriggerOutcome where
  | ok
  | thrown (err : Option String)
  deriving Repr, DecidableEq

/-- How the awaited steps of `handleDownload` can settle: the `fetch`
throws, the response is non-ok, `response.blob()` throws, or a blob is
obtained — after which the object URL is created and the trigger steps
run. -/
inductive DownloadOutcome where
  | fetchThrow (err : Option String)
  | notOk
  | blobThrow (err : Option String)
  | success (trigger : TriggerOutcome)
  deriving Repr, DecidableEq

/-- Result of a download call: the settled state plus the counts of
`createObjectURL` and `revokeObjectURL` calls performed. -/
structure DownloadResult where
  state : ManagerState
  urlsCreated : Nat
  urlsRevoked : Nat
  deriving Repr, DecidableEq

/-- `setActiveDownloadId(file.id); setErrorMessage(null);`
(lines 114–115). -/
def handleDownloadStart (s : ManagerState) (file : FileRecord) : ManagerState :=
  { s with activeDownloadId := some file.id, errorMessage := none }

/-- `handleDownload` (lines 113–139). A non-ok response raises
`` Error(`${file.fileName}のダウンロードに失敗しました。`) ``. When the blob is
obtained, `createObjectURL` runs (line 123); `revokeObjectURL` (line 130)
sits inside the `try` after the trigger steps, so a throw in any trigger
step jumps to `catch` and skips it. The `finally` block always resets
`activeDownloadId`. -/
def handleDownload (s : ManagerState) (file : FileRecord) (o : DownloadOutcome) :
    DownloadResult :=
  let s1 := handleDownloadStart s file
  match o with
  | .fetchThrow err =>
    ⟨{ s1 with errorMessage := some (err.getD downloadErrFallbackMsg),
               activeDownloadId := none }, 0, 0⟩
  | .notOk =>
    ⟨{ s1 with errorMessage := some (file.fileName ++ downloadFailedSuffix),
               activeDownloadId := none }, 0, 0⟩
  | .blobThrow err =>
    ⟨{ s1 with errorMessage := some (err.getD downloadErrFallbackMsg),
               activeDownloadId := none }, 0, 0⟩
  | .success .ok =>
    ⟨{ s1 with activeDownloadId := none }, 1, 1⟩
  | .success (.thrown err) =>
    ⟨{ s1 with errorMessage := some (err.getD downloadErrFallbackMsg),
               activeDownloadId := none }, 1, 0⟩

/-- The settled `errorMessage` of a download of `file`, as a function of
the outcome alone. -/
def downloadErrOf (file : FileRecord) : DownloadOutcome → Option String
  | .fetchThrow err => some (err.getD downloadErrFallbackMsg)
  | .notOk => some (file.fileName ++ downloadFailedSuffix)
  | .blobThrow err => some (err.getD downloadErrFallbackMsg)
  | .success .ok => none
  | .success (.thrown err) => some (err.getD downloadErrFallbackMsg)

/-! ## `handleDelete` (the delete operation, lines 141–162) -/

/-- How the awaited steps of `handleDelete` can settle: the `fetch`
throws, the response is non-ok, or it is ok. -/
inductive DeleteOutcome where
  | fetchThrow (err : Option String)
  | notOk
  | success
  deriving Repr, DecidableEq

/-- `setDeletingId(fileId); setErrorMessage(null);` (lines 142–143). -/
def handleDeleteStart (s : ManagerState) (fileId : String) : ManagerState :=
  { s with deletingId := some fileId, errorMessage := none }

/-- `handleDelete` (lines 141–162). A non-ok response raises
`Error(deleteFailedMsg)`. On success the source runs
`setFiles((previous) => previous.filter((file) => file.id !== fileId))`.
The `finally` block always resets `deletingId`. -/
def handleDelete (s : ManagerState) (fileId : String) (o : DeleteOutcome) :
    ManagerState :=
  let s1 := handleDeleteStart s fileId
  let s2 :=
    match o with
    | .fetchThrow err => { s1 with errorMessage := some (err.getD deleteErrFallbackMsg) }
    | .notOk => { s1 with errorMessage := some deleteFailedMsg }
    | .success => { s1 with files := s1.files.filter (fun file => file.id ≠ fileId) }
  { s2 with deletingId := none }

/-- The settled `errorMessage` of a delete call, as a function of the
outcome alone. -/
def deleteErrOf : DeleteOutcome → Option String
  | .fetchThrow err => some (err.getD deleteErrFallbackMsg)
  | .notOk => some deleteFailedMsg
  | .success => none

/-- A sample stored-file record used for concrete counterexamples and
examples. -/
def sampleFile : FileRecord :=
  { id := "f1", fileName := "report.pdf", size := 1536,
    uploadedAt := "2024-01-01T00:00:00Z" }

/-- A second sample record with a different id. -/
def sampleFile2 : FileRecord :=
  { id := "f2", fileName := "notes.txt", size := 42,
    uploadedAt := "2024-01-02T00:00:00Z" }

/-! ## Theorems -/

/-- The lookup `units[i]` is defined exactly for `i < 5`. -/
theorem units_get?_isSome (i : Nat) : (units.get? i).isSome ↔ i < 5 := by
  match i with
  | 0 => simp [units]
  | 1 => simp [units]
  | 2 => simp [units]
  | 3 => simp [units]
  | 4 => simp [units]
  | n + 5 => simp [units]

/-- C8: `formatFileSize` renders `0` as `"0 B"`, `1536` as `"1.5 KB"` and
`1073741824` as `"1.0 GB"`. (At these inputs the IEEE-754 double
computation of the source is exact, so the exact-arithmetic model coincides
with it.) -/
theorem formatFileSize_spec_values :
    formatFileSize 0 = some "0 B" ∧ formatFileSize 1536 = some "1.5 KB" ∧
      formatFileSize 1073741824 = some "1.0 GB" := by
  refine ⟨by decide, ?_, ?_⟩
  · have h1 : logIndex 1536 = some 1 := by
      rw [logIndex, if_pos (by decide)]
      exact congrArg some (Nat.log_eq_of_pow_le_of_lt_pow (by decide) (by decide))
    simp only [formatFileSize, h1]
    decide
  · have h3 : logIndex 1073741824 = some 3 := by
      rw [logIndex, if_pos (by decide)]
      exact congrArg some (Nat.log_eq_of_pow_le_of_lt_pow (by decide) (by decide))
    simp only [formatFileSize, h3]
    decide

/-- C10: `formatFileSize` yields a defined result (no `undefined` unit)
exactly for `0 ≤ size < 1024 ^ 5`; for `size ≥ 1024 ^ 5` the index exceeds
the bounds of the five-element `units` array and for negative sizes the
index is `NaN`, so the unit lookup is undefined. (Stated over the
exact-logarithm model of the index; see `logIndex`.) -/
theorem formatFileSize_defined_iff (s : Int) :
    (formatFileSize s).isSome ↔ 0 ≤ s ∧ s < 1024 ^ 5 := by
  have hpow : (1024 : Int) ^ 5 = 1125899906842624 := by norm_num
  by_cases h0 : s = 0
  · subst h0
    rw [formatFileSize, if_pos rfl]
    simp only [Option.isSome_some, true_iff, hpow]
    omega
  by_cases hpos : 0 < s
  · have hn : s.toNat ≠ 0 := by omega
    rw [formatFileSize, if_neg h0, logIndex, if_pos hpos]
    have hlog := Nat.lt_pow_iff_log_lt (b := 1024) (by norm_num) hn (x := 5)
    have hnatpow : (1024 : Nat) ^ 5 = 1125899906842624 := by norm_num
    rw [hnatpow] at hlog
    rw [Option.some_bind, Option.isSome_map', units_get?_isSome, hpow, ← hlog]
    omega
  · have hneg : s < 0 := by omega
    rw [formatFileSize, if_neg h0, logIndex, if_neg hpos]
    simp only [Option.none_bind, Option.isSome_none, Bool.false_eq_true, false_iff, hpow]
    omega

/-- C1: for every operation and every outcome of the underlying HTTP
request (success, non-2xx status, or thrown transport/parse error), the
operation's in-flight flag returns to its idle value after the operation
settles: `isLoading = false` after `fetchFiles`, `isUploading = false`
after `handleUpload` (with a file selected, so a request is issued),
`activeDownloadId = none` after `handleDownload`, and `deletingId = none`
after `handleDelete`. -/
theorem inflight_flags_reset :
    (∀ s o, (fetchFiles s o).isLoading = false) ∧
    (∀ (s : ManagerState) (name : String) (o : UploadOutcome),
      (handleUpload { s with selectedFile := some name } o).state.isUploading = false) ∧
    (∀ s file o, (handleDownload s file o).state.activeDownloadId = none) ∧
    (∀ s fileId o, (handleDelete s fileId o).deletingId = none) := by
  refine ⟨fun s o => ?_, fun s name o => ?_, fun s file o => ?_, fun s fileId o => ?_⟩
  · cases o <;> rfl
  · cases o <;> rfl
  · rcases o with e | _ | e | (_ | e) <;> rfl
  · cases o <;> rfl

/-- C2 counterexample: an execution of `handleDownload` in which the
response is successful and the object URL is created, but a save-as
trigger step throws — the URL is then revoked zero times, not exactly
once, because `revokeObjectURL` sits inside the `try` after the trigger
steps rather than in a guaranteed-run cleanup. -/
theorem download_revoke_counterexample :
    (handleDownload initialState sampleFile
        (.success (.thrown none))).urlsCreated = 1 ∧
      (handleDownload initialState sampleFile
        (.success (.thrown none))).urlsRevoked = 0 :=
  ⟨rfl, rfl⟩

/-- C2 amended: on a successful response the object URL is created and
revoked exactly once provided no save-as trigger step throws; when a
trigger step (appending the link, clicking it, or removing it) throws, the
revocation is skipped entirely (zero revocations), so the URL leaks. -/
theorem download_revoke_behavior :
    ∀ s file,
      ((handleDownload s file (.success .ok)).urlsCreated = 1 ∧
        (handleDownload s file (.success .ok)).urlsRevoked = 1) ∧
      (∀ e,
        (handleDownload s file (.success (.thrown e))).urlsCreated = 1 ∧
          (handleDownload s file (.success (.thrown e))).urlsRevoked = 0) :=
  fun _ _ => ⟨⟨rfl, rfl⟩, fun _ => ⟨rfl, rfl⟩⟩

/-- C3: a successful `fetchFiles` replaces `files` wholesale with the
records of the response — whether the payload is a wrapper object exposing
a `files` field or a bare array, the resulting state holds exactly the
response's records and nothing carried over from before. -/
theorem list_success_replaces (s : ManagerState) (fs : List FileRecord) :
    (fetchFiles s (.success (.wrapper fs))).files = fs ∧
      (fetchFiles s (.success (.bare fs))).files = fs :=
  ⟨rfl, rfl⟩

/-- C4: every failing `fetchFiles` — non-2xx status, thrown transport
error, or thrown parse error — leaves `files` exactly as before the call
and sets `errorMessage` (to the fixed listing-failed text for a non-2xx
status, and to the thrown error's message or the generic fallback
otherwise). -/
theorem list_failure_preserves_files :
    (∀ s, (fetchFiles s .notOk).files = s.files ∧
      (fetchFiles s .notOk).errorMessage = some listFailedMsg) ∧
    (∀ s e, (fetchFiles s (.fetchThrow e)).files = s.files ∧
      (fetchFiles s (.fetchThrow e)).errorMessage = some (e.getD unexpectedErrMsg)) ∧
    (∀ s e, (fetchFiles s (.jsonThrow e)).files = s.files ∧
      (fetchFiles s (.jsonThrow e)).errorMessage = some (e.getD unexpectedErrMsg)) :=
  ⟨fun _ => ⟨rfl, rfl⟩, fun _ _ => ⟨rfl, rfl⟩, fun _ _ => ⟨rfl, rfl⟩⟩

/-- C5: invoking `handleUpload` while `selectedFile` is `none` issues no
network request (and triggers no list call), sets `errorMessage` to the
validation message, and leaves every other state field — `files`,
`isUploading`, `selectedFile`, `description` — unchanged (the full
resulting state equals the input state with only `errorMessage`
replaced). -/
theorem upload_without_selection :
    ∀ (s : ManagerState) (o : UploadOutcome),
      (handleUpload { s with selectedFile := none } o).uploadRequests = 0 ∧
      (handleUpload { s with selectedFile := none } o).listCalls = 0 ∧
      (handleUpload { s with selectedFile := none } o).state =
        { s with selectedFile := none, errorMessage := some selectFileMsg } :=
  fun _ _ => ⟨rfl, rfl, rfl⟩

/-- C6: for every upload with a selected file — on a successful response
`selectedFile` is cleared to `none`, `description` is cleared to `""`, and
`fetchFiles` is triggered exactly once afterwards; on a failed response
(non-2xx, or a thrown transport error) `errorMessage` is set and both
`selectedFile` and `description` retain their pre-call values. -/
theorem upload_success_clears_and_resyncs :
    (∀ (s : ManagerState) (name : String) (lo : ListOutcome),
      (handleUpload { s with selectedFile := some name }
          (.success lo)).state.selectedFile = none ∧
      (handleUpload { s with selectedFile := some name }
          (.success lo)).state.description = "" ∧
      (handleUpload { s with selectedFile := some name }
          (.success lo)).listCalls = 1) ∧
    (∀ (s : ManagerState) (name : String),
      (handleUpload { s with selectedFile := some name }
          .notOk).state.errorMessage = some uploadFailedMsg ∧
      (handleUpload { s with selectedFile := some name }
          .notOk).state.selectedFile = some name ∧
      (handleUpload { s with selectedFile := some name }
          .notOk).state.description = s.description) ∧
    (∀ (s : ManagerState) (name : String) (e : Option String),
      (handleUpload { s with selectedFile := some name }
          (.fetchThrow e)).state.errorMessage = some (e.getD uploadErrFallbackMsg) ∧
      (handleUpload { s with selectedFile := some name }
          (.fetchThrow e)).state.selectedFile = some name ∧
      (handleUpload { s with selectedFile := some name }
          (.fetchThrow e)).state.description = s.description) := by
  refine ⟨fun s name lo => ?_, fun s name => ⟨rfl, rfl, rfl⟩,
    fun s name e => ⟨rfl, rfl, rfl⟩⟩
  cases lo <;> exact ⟨rfl, rfl, rfl⟩

/-- C7: on a successful delete the resulting `files` is the prior list
filtered to the records whose id differs from the given id (preserving
relative order; in particular deleting `"f1"` from
`[sampleFile, sampleFile2]` leaves `[sampleFile2]`); on a non-2xx response
or a thrown transport error, `files` is unchanged and `errorMessage` is
set. -/
theorem delete_filters_by_id :
    (∀ s fileId, (handleDelete s fileId .success).files =
      s.files.filter (fun file => file.id ≠ fileId)) ∧
    (handleDelete { initialState with files := [sampleFile, sampleFile2] }
      "f1" .success).files = [sampleFile2] ∧
    (∀ s fileId, (handleDelete s fileId .notOk).files = s.files ∧
      (handleDelete s fileId .notOk).errorMessage = some deleteFailedMsg) ∧
    (∀ s fileId e, (handleDelete s fileId (.fetchThrow e)).files = s.files ∧
      (handleDelete s fileId (.fetchThrow e)).errorMessage =
        some (e.getD deleteErrFallbackMsg)) := by
  refine ⟨fun _ _ => rfl, by decide, fun _ _ => ⟨rfl, rfl⟩, fun _ _ _ => ⟨rfl, rfl⟩⟩

/-- C9: every operation attempt clears `errorMessage` at its start (the
`Start` states, mirroring the leading `setErrorMessage(null)` of each
handler), and the settled `errorMessage` of each operation is a function
of that operation's outcome alone — independent of any earlier error held
in the state — so errors never stack and a stale error never survives a
new attempt (the no-file upload guard replaces it with the validation
message). -/
theorem errorMessage_cleared_per_attempt :
    (∀ (s : ManagerState) (fileId : String) (file : FileRecord),
      (fetchFilesStart s).errorMessage = none ∧
      (handleUploadStart s).errorMessage = none ∧
      (handleDownloadStart s file).errorMessage = none ∧
      (handleDeleteStart s fileId).errorMessage = none) ∧
    (∀ s o, (fetchFiles s o).errorMessage = listErrOf o) ∧
    (∀ (s : ManagerState) (name : String) (o : UploadOutcome),
      (handleUpload { s with selectedFile := some name } o).state.errorMessage =
        uploadErrOf o) ∧
    (∀ (s : ManagerState) (o : UploadOutcome),
      (handleUpload { s with selectedFile := none } o).state.errorMessage =
        some selectFileMsg) ∧
    (∀ s file o,
      (handleDownload s file o).state.errorMessage = downloadErrOf file o) ∧
    (∀ s fileId o, (handleDelete s fileId o).errorMessage = deleteErrOf o) := by
  refine ⟨fun s fileId file => ⟨rfl, rfl, rfl, rfl⟩,
    fun s o => ?_, fun s name o => ?_, fun s o => rfl,
    fun s file o => ?_, fun s fileId o => ?_⟩
  · cases o <;> rfl
  · rcases o with e | _ | lo
    · rfl
    · rfl
    · cases lo <;> rfl
  · rcases o with e | _ | e | (_ | e) <;> rfl
  · cases o <;> rfl
